import Mathlib

/-!
Verification of the JBC-FAE-Emulator command registry
(`src/jbc_FE_commands_full.h`) and of the protocol-engine components its
specification describes around it.

The header defines two namespaces of single-byte command identifiers:
`jbc_cmd::BASE` (generic link-control commands) and `jbc_cmd::FE_02`
(the fume-extractor family command set).  Each C++ `static const uint8_t`
constant is embedded as a Lean `def` of type `Nat` with the same name and
value; the tables `BASE_table` / `FE_02_table` list the (name, value)
pairs in source order.
-/

set_option maxRecDepth 100000

namespace JBC

namespace jbc_cmd

namespace BASE

def M_HS : Nat := 0

def M_ACK : Nat := 6

def M_NACK : Nat := 21

def M_SYN : Nat := 22

def M_RESET : Nat := 32

def M_FIRMWARE : Nat := 33

end BASE

namespace FE_02

def M_HS : Nat := 0

def M_EOT : Nat := 4

def M_ACK : Nat := 6

def M_NACK : Nat := 21

def M_SYN : Nat := 22

def M_R_DEVICEIDORIGINAL : Nat := 28

def M_R_DISCOVER : Nat := 29

def M_R_DEVICEID : Nat := 30

def M_W_DEVICEID : Nat := 31

def M_RESET : Nat := 32

def M_FIRMWARE : Nat := 33

def M_CLEARMEMFLASH : Nat := 34

def M_SENDMEMADDRESS : Nat := 35

def M_SENDMEMDATA : Nat := 36

def M_ENDPROGR : Nat := 37

def M_ENDUPD : Nat := 38

def M_CONTINUEUPD : Nat := 39

def M_CLEARING : Nat := 40

def M_FORCEUPDATE : Nat := 41

def M_R_SUCTIONLEVEL : Nat := 48

def M_W_SUCTIONLEVEL : Nat := 49

def M_R_FLOW : Nat := 50

def M_R_SPEED : Nat := 51

def M_R_SELECTFLOW : Nat := 52

def M_W_SELECTFLOW : Nat := 53

def M_R_STANDINTAKES : Nat := 54

def M_W_STANDINTAKES : Nat := 55

def M_R_INTAKEACTIVATION : Nat := 56

def M_W_INTAKEACTIVATION : Nat := 57

def M_R_SUCTIONDELAY : Nat := 58

def M_W_SUCTIONDELAY : Nat := 59

def M_R_DELAYTIME : Nat := 60

def M_R_ACTIVATIONPEDAL : Nat := 61

def M_W_ACTIVATIONPEDAL : Nat := 62

def M_R_PEDALMODE : Nat := 63

def M_W_PEDALMODE : Nat := 64

def M_R_FILTERSTATUS : Nat := 65

def M_R_RESETFILTER : Nat := 66

def M_R_CONNECTEDPEDAL : Nat := 68

def M_R_FILTERSAT : Nat := 69

def M_RESETSTATION : Nat := 80

def M_R_PIN : Nat := 81

def M_W_PIN : Nat := 82

def M_R_STATIONLOCKED : Nat := 83

def M_W_STATIONLOCKED : Nat := 84

def M_R_BEEP : Nat := 85

def M_W_BEEP : Nat := 86

def M_R_CONTINUOUSSUCTION : Nat := 87

def M_W_CONTINUOUSSUCTION : Nat := 88

def M_R_STATERROR : Nat := 89

def M_R_DEVICENAME : Nat := 91

def M_W_DEVICENAME : Nat := 92

def M_R_PINENABLED : Nat := 93

def M_W_PINENABLED : Nat := 94

def M_W_WORKINTAKES : Nat := 96

def M_R_COUNTERS : Nat := 192

def M_R_RESETCOUNTERS : Nat := 193

def M_R_COUNTERSP : Nat := 194

def M_R_RESETCOUNTERSP : Nat := 195

def M_R_USB_CONNECTSTATUS : Nat := 224

def M_W_USB_CONNECTSTATUS : Nat := 225

def M_R_RBT_CONNCONFIG : Nat := 240

def M_W_RBT_CONNCONFIG : Nat := 241

def M_R_RBT_CONNECTSTATUS : Nat := 242

def M_W_RBT_CONNECTSTATUS : Nat := 243

end FE_02

/-- The `jbc_cmd::BASE` namespace as a (name, value) table, in source order. -/
def BASE_table : List (String × Nat) :=
  [("M_HS", BASE.M_HS), ("M_ACK", BASE.M_ACK), ("M_NACK", BASE.M_NACK),
   ("M_SYN", BASE.M_SYN), ("M_RESET", BASE.M_RESET), ("M_FIRMWARE", BASE.M_FIRMWARE)]

/-- The `jbc_cmd::FE_02` namespace as a (name, value) table, in source order. -/
def FE_02_table : List (String × Nat) :=
  [("M_HS", FE_02.M_HS), ("M_EOT", FE_02.M_EOT), ("M_ACK", FE_02.M_ACK),
   ("M_NACK", FE_02.M_NACK), ("M_SYN", FE_02.M_SYN),
   ("M_R_DEVICEIDORIGINAL", FE_02.M_R_DEVICEIDORIGINAL),
   ("M_R_DISCOVER", FE_02.M_R_DISCOVER), ("M_R_DEVICEID", FE_02.M_R_DEVICEID),
   ("M_W_DEVICEID", FE_02.M_W_DEVICEID), ("M_RESET", FE_02.M_RESET),
   ("M_FIRMWARE", FE_02.M_FIRMWARE), ("M_CLEARMEMFLASH", FE_02.M_CLEARMEMFLASH),
   ("M_SENDMEMADDRESS", FE_02.M_SENDMEMADDRESS), ("M_SENDMEMDATA", FE_02.M_SENDMEMDATA),
   ("M_ENDPROGR", FE_02.M_ENDPROGR), ("M_ENDUPD", FE_02.M_ENDUPD),
   ("M_CONTINUEUPD", FE_02.M_CONTINUEUPD), ("M_CLEARING", FE_02.M_CLEARING),
   ("M_FORCEUPDATE", FE_02.M_FORCEUPDATE),
   ("M_R_SUCTIONLEVEL", FE_02.M_R_SUCTIONLEVEL), ("M_W_SUCTIONLEVEL", FE_02.M_W_SUCTIONLEVEL),
   ("M_R_FLOW", FE_02.M_R_FLOW), ("M_R_SPEED", FE_02.M_R_SPEED),
   ("M_R_SELECTFLOW", FE_02.M_R_SELECTFLOW), ("M_W_SELECTFLOW", FE_02.M_W_SELECTFLOW),
   ("M_R_STANDINTAKES", FE_02.M_R_STANDINTAKES), ("M_W_STANDINTAKES", FE_02.M_W_STANDINTAKES),
   ("M_R_INTAKEACTIVATION", FE_02.M_R_INTAKEACTIVATION),
   ("M_W_INTAKEACTIVATION", FE_02.M_W_INTAKEACTIVATION),
   ("M_R_SUCTIONDELAY", FE_02.M_R_SUCTIONDELAY), ("M_W_SUCTIONDELAY", FE_02.M_W_SUCTIONDELAY),
   ("M_R_DELAYTIME", FE_02.M_R_DELAYTIME),
   ("M_R_ACTIVATIONPEDAL", FE_02.M_R_ACTIVATIONPEDAL),
   ("M_W_ACTIVATIONPEDAL", FE_02.M_W_ACTIVATIONPEDAL),
   ("M_R_PEDALMODE", FE_02.M_R_PEDALMODE), ("M_W_PEDALMODE", FE_02.M_W_PEDALMODE),
   ("M_R_FILTERSTATUS", FE_02.M_R_FILTERSTATUS), ("M_R_RESETFILTER", FE_02.M_R_RESETFILTER),
   ("M_R_CONNECTEDPEDAL", FE_02.M_R_CONNECTEDPEDAL), ("M_R_FILTERSAT", FE_02.M_R_FILTERSAT),
   ("M_RESETSTATION", FE_02.M_RESETSTATION), ("M_R_PIN", FE_02.M_R_PIN),
   ("M_W_PIN", FE_02.M_W_PIN), ("M_R_STATIONLOCKED", FE_02.M_R_STATIONLOCKED),
   ("M_W_STATIONLOCKED", FE_02.M_W_STATIONLOCKED), ("M_R_BEEP", FE_02.M_R_BEEP),
   ("M_W_BEEP", FE_02.M_W_BEEP),
   ("M_R_CONTINUOUSSUCTION", FE_02.M_R_CONTINUOUSSUCTION),
   ("M_W_CONTINUOUSSUCTION", FE_02.M_W_CONTINUOUSSUCTION),
   ("M_R_STATERROR", FE_02.M_R_STATERROR), ("M_R_DEVICENAME", FE_02.M_R_DEVICENAME),
   ("M_W_DEVICENAME", FE_02.M_W_DEVICENAME), ("M_R_PINENABLED", FE_02.M_R_PINENABLED),
   ("M_W_PINENABLED", FE_02.M_W_PINENABLED), ("M_W_WORKINTAKES", FE_02.M_W_WORKINTAKES),
   ("M_R_COUNTERS", FE_02.M_R_COUNTERS), ("M_R_RESETCOUNTERS", FE_02.M_R_RESETCOUNTERS),
   ("M_R_COUNTERSP", FE_02.M_R_COUNTERSP), ("M_R_RESETCOUNTERSP", FE_02.M_R_RESETCOUNTERSP),
   ("M_R_USB_CONNECTSTATUS", FE_02.M_R_USB_CONNECTSTATUS),
   ("M_W_USB_CONNECTSTATUS", FE_02.M_W_USB_CONNECTSTATUS),
   ("M_R_RBT_CONNCONFIG", FE_02.M_R_RBT_CONNCONFIG),
   ("M_W_RBT_CONNCONFIG", FE_02.M_W_RBT_CONNCONFIG),
   ("M_R_RBT_CONNECTSTATUS", FE_02.M_R_RBT_CONNECTSTATUS),
   ("M_W_RBT_CONNECTSTATUS", FE_02.M_W_RBT_CONNECTSTATUS)]

/-- The numeric values of the `BASE` constants, in source order. -/
def BASE_values : List Nat := BASE_table.map Prod.snd

/-- The numeric values of the `FE_02` constants, in source order. -/
def FE_02_values : List Nat := FE_02_table.map Prod.snd

end jbc_cmd

open jbc_cmd

/-- The set of byte values that the spec (and claim C1) asserts to be exactly
the values of the `FE_02` constants: {0, 4, 6, 21, 22} ∪ [28, 41] ∪ [48, 69] ∪
[80, 96] ∪ {192, 193, 194, 195, 224, 225, 240, 241, 242, 243}.  This follows the
claim's words, to be compared with the value set computed from the source table. -/
def inC1ClaimedSet (b : Nat) : Bool :=
  ([0, 4, 6, 21, 22] : List Nat).contains b
  || (decide (28 ≤ b) && decide (b ≤ 41))
  || (decide (48 ≤ b) && decide (b ≤ 69))
  || (decide (80 ≤ b) && decide (b ≤ 96))
  || ([192, 193, 194, 195, 224, 225, 240, 241, 242, 243] : List Nat).contains b

/-- C1 (counterexample): the claimed value set is wrong.  Byte 67 lies in the
claimed range 48–69, yet no constant in the `FE_02` table has value 67. -/
theorem fe02_claimed_set_fails_at_67 :
    inC1ClaimedSet 67 = true ∧ FE_02_values.contains 67 = false := by decide

/-- C1 (amended): for every byte b, b is the value of some `FE_02` constant if
and only if b lies in the claimed set with 67, 90 and 95 removed — i.e. the set
{0, 4, 6, 21, 22} ∪ [28, 41] ∪ [48, 66] ∪ {68, 69} ∪ [80, 89] ∪ [91, 94] ∪ {96}
∪ {192, 193, 194, 195, 224, 225, 240, 241, 242, 243}. -/
theorem fe02_value_set_amended :
    ∀ b : Nat, b < 256 →
      FE_02_values.contains b
        = (inC1ClaimedSet b && !(([67, 90, 95] : List Nat).contains b)) := by decide

/-- Witness for `fe02_value_set_amended` at the byte 67 excluded by the amendment. -/
theorem fe02_value_set_amended_witness :
    FE_02_values.contains 67
      = (inC1ClaimedSet 67 && !(([67, 90, 95] : List Nat).contains 67)) :=
  fe02_value_set_amended 67 (by decide)

/-- C2: the `BASE` namespace defines exactly six command constants with the
name-to-value mapping M_HS = 0, M_ACK = 6, M_NACK = 21, M_SYN = 22,
M_RESET = 32, M_FIRMWARE = 33, so its value set is exactly {0, 6, 21, 22, 32, 33}. -/
theorem base_table_exact :
    BASE_table = [("M_HS", 0), ("M_ACK", 6), ("M_NACK", 21), ("M_SYN", 22),
                  ("M_RESET", 32), ("M_FIRMWARE", 33)]
    ∧ BASE_values = [0, 6, 21, 22, 32, 33] := by decide

/-- C8: whenever the `FE_02` table contains a read command `M_R_x` and a write
command `M_W_x` for the same register name `x`, the write command's value is the
read command's value plus one. -/
theorem fe02_rw_pairs :
    ∀ p ∈ FE_02_table, ∀ q ∈ FE_02_table,
      p.1.data.take 4 = "M_R_".data →
      q.1.data = "M_W_".data ++ p.1.data.drop 4 →
      q.2 = p.2 + 1 := by decide

/-- Witness for `fe02_rw_pairs` at the SUCTIONLEVEL pair (48, 49). -/
theorem fe02_rw_pairs_witness : (49 : Nat) = 48 + 1 :=
  fe02_rw_pairs ("M_R_SUCTIONLEVEL", 48) (by decide) ("M_W_SUCTIONLEVEL", 49)
    (by decide) (by decide) (by decide)

/-- C9: within each namespace the constants are pairwise distinct — the list of
values of `BASE` has no duplicate, and neither does the list of values of
`FE_02` (likewise for the constant names), so a byte value identifies at most
one command within a namespace. -/
theorem namespace_values_distinct :
    (BASE_table.map Prod.snd).Nodup ∧ (FE_02_table.map Prod.snd).Nodup
    ∧ (BASE_table.map Prod.fst).Nodup ∧ (FE_02_table.map Prod.fst).Nodup := by decide

/-- C10: every (name, value) pair of the `BASE` table also occurs in the `FE_02`
table, the `BASE` value set is a subset of the `FE_02` value set, and looking up
any `BASE` name in the `FE_02` table returns the `BASE` value — the two tables
never disagree on a shared name. -/
theorem base_subset_fe02 :
    BASE_table.all (fun p => FE_02_table.contains p) = true
    ∧ BASE_values.all (fun v => FE_02_values.contains v) = true
    ∧ BASE_table.all
        (fun p => (FE_02_table.find? (fun q => q.1 == p.1)).map Prod.snd == some p.2)
      = true := by decide

/-- Result of classifying a wire byte against the command registry:
a `BASE` control op, an `FE_02` op, or `unknown`. -/
inductive Classification where
  | baseOp (b : Nat)
  | fe02Op (b : Nat)
  | unknown
deriving DecidableEq

/-- Modelled from the spec: the `classify` function of §4.2 is not in src/
(only the registry table is); it is derived here by membership in the source
tables — a byte in the `BASE` table is a BASE control op, a byte only in the
`FE_02` table is an FE_02 op, and anything else is `unknown`. -/
def classify (b : Nat) : Classification :=
  if BASE_values.contains b then .baseOp b
  else if FE_02_values.contains b then .fe02Op b
  else .unknown

/-- C3: `classify` is total on bytes — a byte equal to some constant of the
`BASE` or `FE_02` table gets a known (non-`unknown`) classification naming that
byte, and a byte not in either table classifies as `unknown`. -/
theorem classify_total :
    ∀ b : Nat,
      (classify b = .unknown
          ↔ BASE_values.contains b = false ∧ FE_02_values.contains b = false)
      ∧ (classify b = .baseOp b ↔ BASE_values.contains b = true)
      ∧ (classify b = .fe02Op b
          ↔ BASE_values.contains b = false ∧ FE_02_values.contains b = true) := by
  intro b
  simp only [classify]
  split <;> rename_i h1
  · simp_all
  · split <;> rename_i h2 <;> simp_all

/-- The protocol families whose command tables appear in src/: only the
fume-extractor family FE_02 is defined there (the header's comment names
SOLD/HA/PH/SF families but defines no tables for them). -/
inductive ProtocolFamily where
  | FE02
deriving DecidableEq

/-- A command namespace of the registry header. -/
inductive CmdNamespace where
  | nsBASE
  | nsFE02
deriving DecidableEq

/-- The byte values belonging to each namespace, from the source tables. -/
def namespaceValues : CmdNamespace → List Nat
  | .nsBASE => BASE_values
  | .nsFE02 => FE_02_values

/-- Modelled from the spec: a session negotiated to the FE_02 family recognizes
the FE_02 namespace — which itself contains all the shared BASE link-control
commands — as its wire vocabulary. -/
def recognizedNamespaces : ProtocolFamily → List CmdNamespace
  | .FE02 => [.nsFE02]

/-- Modelled from the spec: a byte is accepted on the wire for a negotiated
family iff some namespace recognized by that family contains it. -/
def acceptedOnWire (f : ProtocolFamily) (b : Nat) : Bool :=
  (recognizedNamespaces f).any fun ns => (namespaceValues ns).contains b

/-- Modelled from the spec: classification of a wire byte for a negotiated
family — the recognized namespace containing the byte, or `none` (rejected). -/
def classifyForFamily (f : ProtocolFamily) (b : Nat) : Option CmdNamespace :=
  (recognizedNamespaces f).find? fun ns => (namespaceValues ns).contains b

/-- C4: for a session negotiated to the FE_02 family, an accepted byte belongs
to exactly one recognized namespace (count 1, count 0 when rejected), it matches
exactly one entry of the `FE_02` table (unambiguous classification), and a byte
recognized by no namespace of the family is rejected (`none`), never passed
through. -/
theorem family_namespace_unambiguous :
    ∀ b : Nat, b < 256 →
      (recognizedNamespaces .FE02).countP
          (fun ns => (namespaceValues ns).contains b)
        = (if acceptedOnWire .FE02 b then 1 else 0)
      ∧ FE_02_table.countP (fun p => p.2 == b)
        = (if acceptedOnWire .FE02 b then 1 else 0)
      ∧ (classifyForFamily .FE02 b = none ↔ acceptedOnWire .FE02 b = false) := by decide

/-- Witness for `family_namespace_unambiguous` at byte 48 (M_R_SUCTIONLEVEL). -/
theorem family_namespace_unambiguous_witness :
    (recognizedNamespaces .FE02).countP
        (fun ns => (namespaceValues ns).contains 48)
      = (if acceptedOnWire .FE02 48 then 1 else 0)
    ∧ FE_02_table.countP (fun p => p.2 == 48)
      = (if acceptedOnWire .FE02 48 then 1 else 0)
    ∧ (classifyForFamily .FE02 48 = none ↔ acceptedOnWire .FE02 48 = false) :=
  family_namespace_unambiguous 48 (by decide)

/-- Modelled from the spec: a Message is a command id with a payload of bytes
(§3); immutable once constructed. -/
structure Message where
  cmd : Nat
  payload : List Nat
deriving DecidableEq

/-- Modelled from the spec: the control messages (HS, EOT, ACK, NACK, SYN)
carry no payload (§3: payload length is command-dependent, 0 for control
messages). -/
def controlCmds : List Nat :=
  [FE_02.M_HS, FE_02.M_EOT, FE_02.M_ACK, FE_02.M_NACK, FE_02.M_SYN]

/-- Modelled from the spec: the maximum payload length defined for a command —
0 for control messages, otherwise bounded by the one-byte length field. -/
def maxPayloadLength (c : Nat) : Nat :=
  if controlCmds.contains c then 0 else 255

/-- Modelled from the spec: frame start marker of the inferred
header+id+payload+checksum wire shape (§4.1, open question on exact layout). -/
def STX : Nat := 2

/-- Modelled from the spec: the integrity check over command id and payload,
reduced modulo 256 to fit the trailing checksum byte. -/
def checksum (c : Nat) (payload : List Nat) : Nat :=
  (c + payload.length + payload.sum) % 256

/-- Modelled from the spec: the wire bytes of a Message — header byte, command
id, payload length, payload, trailing checksum. -/
def frameBytes (m : Message) : List Nat :=
  STX :: m.cmd :: m.payload.length :: m.payload ++ [checksum m.cmd m.payload]

inductive EncodeError where
  | payloadTooLarge
deriving DecidableEq

/-- Modelled from the spec: `encode` is total for any Message whose payload
fits the command's defined size; an oversized payload is the caller error
`PayloadTooLarge` (§4.1). -/
def encode (m : Message) : Except EncodeError (List Nat) :=
  if m.payload.length ≤ maxPayloadLength m.cmd then .ok (frameBytes m)
  else .error .payloadTooLarge

/-- Result of decoding wire bytes: a Message, a corrupt frame, or an
incomplete prefix. -/
inductive DecodeResult where
  | ok (m : Message)
  | corruptFrame
  | incomplete
deriving DecidableEq

/-- Modelled from the spec: `decode` (§4.1) — a prefix shorter than a full
frame is `Incomplete`; a wrong header byte or checksum mismatch is
`CorruptFrame`; otherwise the framed Message is returned. -/
def decode (bs : List Nat) : DecodeResult :=
  match bs with
  | [] => .incomplete
  | h :: rest =>
    if h = STX then
      match rest with
      | c :: len :: rest2 =>
        if rest2.length < len + 1 then .incomplete
        else if (rest2.drop len).headD 0 = checksum c (rest2.take len) then
          .ok ⟨c, rest2.take len⟩
        else .corruptFrame
      | _ => .incomplete
    else .corruptFrame

/-- C5: round-trip law of the Frame Codec — for every Message whose payload
does not exceed its command's maximum length, `encode` succeeds and `decode`
of the encoded bytes returns the Message itself (neither `CorruptFrame` nor
`Incomplete`). -/
theorem codec_round_trip (m : Message)
    (h : m.payload.length ≤ maxPayloadLength m.cmd) :
    encode m = .ok (frameBytes m) ∧ decode (frameBytes m) = .ok m := by
  obtain ⟨c, p⟩ := m
  refine ⟨by simp [encode, h], ?_⟩
  simp [decode, frameBytes, List.take_left, List.drop_left]

/-- Witness for `codec_round_trip` at the message (M_R_SUCTIONLEVEL, [5]). -/
theorem codec_round_trip_witness :
    encode ⟨48, [5]⟩ = .ok (frameBytes ⟨48, [5]⟩)
    ∧ decode (frameBytes ⟨48, [5]⟩) = .ok ⟨48, [5]⟩ :=
  codec_round_trip ⟨48, [5]⟩ (by decide)

/-- Reply of the transport peer to one sent request. -/
inductive Reply where
  | ack
  | nack
  | timeoutR
deriving DecidableEq

/-- Outcome of a register write surfaced to the caller. -/
inductive WriteOutcome where
  | success
  | operationRejected
  | timedOut
deriving DecidableEq

/-- Modelled from the spec: the bounded retry loop of a register write (§4.3,
§7) — each attempt sends the message; ACK succeeds, NACK or timeout consumes
one attempt and retries until the budget is exhausted, then the last failure
surfaces (`OperationRejected` after a NACK).  Returns the outcome and the
number of attempts made. -/
def writeGo (tr : Message → Reply) (msg : Message) :
    Nat → Nat → WriteOutcome → WriteOutcome × Nat
  | 0, used, last => (last, used)
  | k + 1, used, _ =>
    match tr msg with
    | .ack => (.success, used + 1)
    | .nack => writeGo tr msg k (used + 1) .operationRejected
    | .timeoutR => writeGo tr msg k (used + 1) .timedOut

/-- Modelled from the spec: `write(registerId, value)` against transport `tr`
with the configured retry count — sends the write command with the value as
payload, retrying per `writeGo`. -/
def writeReg (tr : Message → Reply) (retryCount cmd value : Nat) :
    WriteOutcome × Nat :=
  writeGo tr ⟨cmd, [value]⟩ retryCount 0 .operationRejected

/-- A simulated transport that replies NACK to every request. -/
def alwaysNack : Message → Reply := fun _ => .nack

/-- C6: against a transport that always replies NACK, a register write with a
positive configured retry count fails with `OperationRejected` after exactly
that many attempts — never fewer, never more. -/
theorem write_retry_bound (n cmd value : Nat) (h : 0 < n) :
    writeReg alwaysNack n cmd value = (.operationRejected, n) := by
  obtain ⟨k, rfl⟩ : ∃ k, n = k + 1 := ⟨n - 1, by omega⟩
  have aux : ∀ (j u : Nat),
      writeGo alwaysNack ⟨cmd, [value]⟩ (j + 1) u .operationRejected
        = (.operationRejected, u + j + 1) := by
    intro j
    induction j with
    | zero => intro u; simp [writeGo, alwaysNack]
    | succ i ih =>
      intro u
      have hstep : writeGo alwaysNack ⟨cmd, [value]⟩ (i + 1 + 1) u .operationRejected
          = writeGo alwaysNack ⟨cmd, [value]⟩ (i + 1) (u + 1) .operationRejected := by
        simp [writeGo, alwaysNack]
      rw [hstep, ih]
      have : u + 1 + i + 1 = u + (i + 1) + 1 := by omega
      rw [this]
  have := aux k 0
  simpa [writeReg] using this

/-- Witness for `write_retry_bound` with retry count 3 writing value 5 via
M_W_SUCTIONLEVEL. -/
theorem write_retry_bound_witness :
    writeReg alwaysNack 3 49 5 = (.operationRejected, 3) :=
  write_retry_bound 3 49 5 (by decide)

/-- The phases of a Link Session (§3, §4.3). -/
inductive Phase where
  | Disconnected
  | Handshaking
  | Syncing
  | Ready
  | UpdateInProgress
  | Faulted
deriving DecidableEq

/-- A register-level operation of the Register Access Layer. -/
inductive RegOp where
  | read (registerId : Nat)
  | write (registerId : Nat) (value : Nat)
deriving DecidableEq

/-- Outcome of submitting a register operation in a given session phase. -/
inductive RegOutcome where
  | performed (op : RegOp)
  | failSessionNotReady
deriving DecidableEq

/-- Modelled from the spec: a register read/write requires the `Ready` phase
and otherwise fails with `SessionNotReady` (§4.4). -/
def regOpResult (p : Phase) (op : RegOp) : RegOutcome :=
  if p = .Ready then .performed op else .failSessionNotReady

/-- The firmware-update step commands of the FE_02 table driven by the
orchestrator (§4.5). -/
def updateStepCmds : List Nat :=
  [FE_02.M_CLEARMEMFLASH, FE_02.M_SENDMEMADDRESS, FE_02.M_SENDMEMDATA,
   FE_02.M_ENDPROGR, FE_02.M_ENDUPD, FE_02.M_CONTINUEUPD, FE_02.M_CLEARING]

/-- Modelled from the spec: an update-step command is accepted while the
session is `UpdateInProgress`; the sole exception is the update-entry command
`M_CLEARMEMFLASH`, accepted from `Ready` (§4.3: `Ready → UpdateInProgress` is
triggered by the sequence beginning with `M_CLEARMEMFLASH`). -/
def updateStepAccepted (p : Phase) (c : Nat) : Bool :=
  (p == Phase.UpdateInProgress && updateStepCmds.contains c)
  || (p == Phase.Ready && c == FE_02.M_CLEARMEMFLASH)

/-- C7: phase-gated command legality — in any session phase, a register
read/write not issued in `Ready` fails with `SessionNotReady` (so it never
succeeds outside `Ready`), and an accepted update-step command implies the
phase is `UpdateInProgress`, except the entry command `M_CLEARMEMFLASH` issued
from `Ready`. -/
theorem phase_gated_legality :
    ∀ (p : Phase) (op : RegOp) (c : Nat),
      (p ≠ Phase.Ready → regOpResult p op = .failSessionNotReady)
      ∧ (updateStepAccepted p c = true →
          p = Phase.UpdateInProgress
          ∨ (p = Phase.Ready ∧ c = FE_02.M_CLEARMEMFLASH)) := by
  intro p op c
  constructor
  · intro h
    simp [regOpResult, h]
  · intro h
    cases p <;> simp_all [updateStepAccepted]

/-- Witness for `phase_gated_legality` in phase `UpdateInProgress` with a
register write and the update-step command M_SENDMEMDATA. -/
theorem phase_gated_legality_witness :
    regOpResult Phase.UpdateInProgress (.write 49 5) = .failSessionNotReady
    ∧ (Phase.UpdateInProgress = Phase.UpdateInProgress
        ∨ (Phase.UpdateInProgress = Phase.Ready
            ∧ (36 : Nat) = FE_02.M_CLEARMEMFLASH)) :=
  ⟨(phase_gated_legality Phase.UpdateInProgress (.write 49 5) 36).1 (by decide),
   (phase_gated_legality Phase.UpdateInProgress (.write 49 5) 36).2 (by decide)⟩

end JBC
